import Mathlib

/-!
Verification of the slog-cloud logging library.

The Go source (slogcloud.go) is shallowly embedded below.  The remote
CloudWatch Logs service (AWS SDK calls), the wall clock, and the random
UUID generator are environmental inputs: they are passed in explicitly
(`CloudwatchApi` is the oracle of remote responses, `ts` the formatted
timestamp given by `time.Now().Format`, `u` the 128-bit value of the
generated UUID).  Every network call, sleep, console print and process
exit performed by the code is recorded in a trace of `Event`s, so that
theorems can speak about how often and in which order the remote client
is invoked.
-/

namespace SlogCloud

/-- JSON values, as produced by `json.Marshal` on the `logEntry` map. -/
inductive Json where
  | str (s : String)
  | num (n : Int)
  | bool (b : Bool)
  | null
  | obj (fields : List (String × Json))

/-- Values an `slog` attribute can carry in this embedding: the dynamic
`a.Value.Any()` of the Go code, with error values kept distinguishable
(the code tests `val.(error)`). -/
inductive AttrValue where
  | str (s : String)
  | int (n : Int)
  | bool (b : Bool)
  | err (text : String)
  | null

/-- An `slog.Record`: message plus ordered key/value attributes. -/
structure LogRecord where
  message : String
  attrs : List (String × AttrValue)

/-- The provisioned destination handle (fields of the Go struct
`CloudwatchClient`; the embedded SDK client handle is the `CloudwatchApi`
oracle passed to each operation). -/
structure CloudwatchClient where
  logStream : String
  logGroup : String
deriving DecidableEq

/-- Observable actions of the code: remote API calls, sleeps (in
seconds), console output and process termination. -/
inductive Event where
  | describeLogGroups (pat : String)
  | createLogGroup (g : String)
  | createLogStream (g s : String)
  | sleepSeconds (n : Nat)
  | putLogEvents (g s : String) (events : List (Json × Nat))
  | exitProcess (code : Nat)
  | consoleOut (line : String)

/-- Oracle of remote-service responses.  `loadConfig` models
`config.LoadDefaultConfig` (fed the access key, secret key and region);
`describeLogGroups` returns the names of the groups matching a pattern;
`createLogStream` is indexed by the attempt number so that transient
failures followed by success can be expressed. -/
structure CloudwatchApi where
  loadConfig : String → String → String → Except String Unit
  describeLogGroups : String → Except String (List String)
  createLogGroup : String → Except String Unit
  createLogStream : Nat → String → String → Except String Unit
  putLogEvents : String → String → List (Json × Nat) → Except String Unit

/-- Hex digit character, lowercase (as in `uuid.UUID.String`). -/
def hexDigitChar (d : Nat) : Char :=
  if d < 10 then Char.ofNat (48 + d) else Char.ofNat (87 + d)

/-- Big-endian fixed-width hexadecimal rendering of `n % 16 ^ w`. -/
def hexChars : Nat → Nat → List Char
  | 0, _ => []
  | w + 1, n => hexChars w (n / 16) ++ [hexDigitChar (n % 16)]

/-- Canonical 8-4-4-4-12 rendering of a 128-bit UUID value, as produced
by `uuid.New().String()`. -/
def uuidChars (n : Nat) : List Char :=
  hexChars 8 (n / 16 ^ 24) ++ '-' ::
    (hexChars 4 (n / 16 ^ 20) ++ '-' ::
      (hexChars 4 (n / 16 ^ 16) ++ '-' ::
        (hexChars 4 (n / 16 ^ 12) ++ '-' :: hexChars 12 n)))

/-- String form of a UUID value. -/
def uuidString (n : Nat) : String :=
  String.mk (uuidChars n)

/-- The generated log-stream name:
`fmt.Sprintf("slogcloud-stream-%s-%s", time.Now().Format(...), uuid.New().String())`. -/
def streamName (ts : String) (u : Nat) : String :=
  "slogcloud-stream-" ++ ts ++ "-" ++ uuidString u

/-- The stream-creation retry loop of `NewCloudwatchClient`:
`for i := 0; i < maxRetries; i++ { ... }`.  `fuel` is the remaining
iterations, `i` the attempt index handed to the oracle, `lastErr` the
Go `lastErr` variable.  On success the loop breaks WITHOUT clearing
`lastErr`; on failure it records the error and sleeps 2 seconds.
Returns the trace of this loop and the final value of `lastErr`. -/
def tryCreateStream (api : CloudwatchApi) (g s : String) :
    Nat → Nat → Option String → List Event × Option String
  | 0, _, lastErr => ([], lastErr)
  | fuel + 1, i, lastErr =>
    match api.createLogStream i g s with
    | .ok _ => ([Event.createLogStream g s], lastErr)
    | .error e =>
      let rest := tryCreateStream api g s fuel (i + 1) (some e)
      (Event.createLogStream g s :: Event.sleepSeconds 2 :: rest.1, rest.2)

/-- The create-if-absent step of `NewCloudwatchClient`: if the group was
found nothing is created; otherwise `CreateLogGroup` is called and, on
success, the code sleeps 5 seconds (`time.Sleep(5 * time.Second)`). -/
def groupStep (api : CloudwatchApi) (logGroup : String) (groupExists : Bool) :
    List Event × Except String Unit :=
  if groupExists then
    ([Event.describeLogGroups logGroup], .ok ())
  else
    match api.createLogGroup logGroup with
    | .error e =>
      ([Event.describeLogGroups logGroup, Event.createLogGroup logGroup],
        .error ("failed to create log group: " ++ e))
    | .ok _ =>
      ([Event.describeLogGroups logGroup, Event.createLogGroup logGroup,
        Event.sleepSeconds 5], .ok ())

/-- Body of `NewCloudwatchClient` after AWS config loading and the group
existence check: group creation if needed, then stream creation with
the retry loop and the final `lastErr` test. -/
def afterDescribe (api : CloudwatchApi) (logGroup ts : String) (u : Nat)
    (groupExists : Bool) : List Event × Except String CloudwatchClient :=
  match (groupStep api logGroup groupExists).2 with
  | .error e => ((groupStep api logGroup groupExists).1, .error e)
  | .ok _ =>
    match (tryCreateStream api logGroup (streamName ts u) 3 0 none).2 with
    | some e =>
      ((groupStep api logGroup groupExists).1 ++
          (tryCreateStream api logGroup (streamName ts u) 3 0 none).1,
        .error ("failed to create CloudWatch log stream after 3 attempts: " ++ e))
    | none =>
      ((groupStep api logGroup groupExists).1 ++
          (tryCreateStream api logGroup (streamName ts u) 3 0 none).1,
        .ok { logStream := streamName ts u, logGroup := logGroup })

/-- Embedding of `NewCloudwatchClient(accessKey, secretAccessKey, logGroup, region)`.
`ts` is the formatted current time and `u` the generated UUID value.
Returns the trace of observable events together with the result.
A failing `DescribeLogGroups` call is only printed by the code:
`exists` keeps its initial value `false` in that case. -/
def NewCloudwatchClient (api : CloudwatchApi)
    (accessKey secretAccessKey logGroup region : String) (ts : String) (u : Nat) :
    List Event × Except String CloudwatchClient :=
  match api.loadConfig accessKey secretAccessKey region with
  | .error e => ([], .error ("could not load AWS config: " ++ e))
  | .ok _ =>
    afterDescribe api logGroup ts u
      (match api.describeLogGroups logGroup with
       | .error _ => false
       | .ok groups => groups.contains logGroup)

/-- `serializeValue` renders one attribute value the way `EmitLog` does:
an error value becomes its `Error()` text, everything else passes
through with its standard JSON representation. -/
def serializeValue : AttrValue → Json
  | .str s => .str s
  | .int n => .num n
  | .bool b => .bool b
  | .err t => .str t
  | .null => .null

/-- Insert-or-replace on the association list representing the Go map
`logEntry` (`logEntry[a.Key] = ...`). -/
def mapInsert (m : List (String × Json)) (k : String) (v : Json) : List (String × Json) :=
  if m.any (fun p => p.1 == k) then
    m.map fun p => if p.1 == k then (k, v) else p
  else
    m ++ [(k, v)]

/-- The `logEntry` map built by `EmitLog`: starts as
`{"message": message}`, then each attribute is inserted, error values
rendered as their text. -/
def buildLogEntry (r : LogRecord) : List (String × Json) :=
  r.attrs.foldl (fun m p => mapInsert m p.1 (serializeValue p.2))
    [("message", Json.str r.message)]

/-- Embedding of `CloudwatchClient.EmitLog`.  `nowNanos` is
`time.Now().UnixNano()`; the event timestamp is
`UnixNano() / int64(time.Millisecond)`, i.e. division by 1000000.
Performs exactly one `PutLogEvents` call carrying exactly one event and
wraps any failure. -/
def EmitLog (api : CloudwatchApi) (cw : CloudwatchClient) (r : LogRecord) (nowNanos : Nat) :
    List Event × Except String Unit :=
  let events : List (Json × Nat) := [(Json.obj (buildLogEntry r), nowNanos / 1000000)]
  ([Event.putLogEvents cw.logGroup cw.logStream events],
    match api.putLogEvents cw.logGroup cw.logStream events with
    | .ok _ => .ok ()
    | .error e => .error ("failed to send log to CloudWatch: " ++ e))

/-- The handler that sends logs to CloudWatch; wraps the provisioned client. -/
structure CloudWatchLogHandler where
  client : CloudwatchClient
deriving DecidableEq

/-- `WithAttrs` returns the handler unchanged. -/
def CloudWatchLogHandler.WithAttrs (h : CloudWatchLogHandler)
    (attrs : List (String × AttrValue)) : CloudWatchLogHandler :=
  h

/-- `WithGroup` returns the handler unchanged. -/
def CloudWatchLogHandler.WithGroup (h : CloudWatchLogHandler) (name : String) :
    CloudWatchLogHandler :=
  h

/-- `Handle` forwards the record to `EmitLog` on the wrapped client. -/
def CloudWatchLogHandler.Handle (api : CloudwatchApi) (h : CloudWatchLogHandler)
    (r : LogRecord) (nowNanos : Nat) : List Event × Except String Unit :=
  EmitLog api h.client r nowNanos

/-- `Enabled` returns true for every level. -/
def CloudWatchLogHandler.Enabled (h : CloudWatchLogHandler) (level : Int) : Bool :=
  true

/-- The cloud-backed logger; its methods log through the installed
CloudWatch handler. -/
structure SlogLogger where
  handler : CloudWatchLogHandler

/-- The console logger used outside production. -/
structure StdLogger where

/-- How Go prints an `error` argument: `nil` prints as `<nil>`. -/
def errText : Option String → String
  | some t => t
  | none => "<nil>"

/-- The record produced by `slog.Error(msg, slog.Any("fatal", err))`:
the single attribute "fatal" holds the error (or nil). -/
def fatalRecord (msg : String) (err : Option String) : LogRecord :=
  { message := msg
    attrs := [("fatal", match err with | some t => AttrValue.err t | none => AttrValue.null)] }

/-- Embedding of `SlogLogger.Fatal`: emits the record through the
CloudWatch handler (the emission result is discarded by `slog`), then
calls `os.Exit(1)`.  Returns the event trace and the exit code. -/
def SlogLogger.Fatal (api : CloudwatchApi) (s : SlogLogger) (msg : String)
    (err : Option String) (nowNanos : Nat) : List Event × Nat :=
  let r := EmitLog api s.handler.client (fatalRecord msg err) nowNanos
  (r.1 ++ [Event.exitProcess 1], 1)

/-- Embedding of `StdLogger.Fatal`: prints `FATAL: <msg> <err>` and
calls `os.Exit(1)`. -/
def StdLogger.Fatal (msg : String) (err : Option String) : List Event × Nat :=
  ([Event.consoleOut ("FATAL: " ++ msg ++ " " ++ errText err), Event.exitProcess 1], 1)

/-- Environment constant. -/
def PROD : String := "prod"

/-- Environment constant. -/
def DEV : String := "dev"

/-- Result of `GetLogger`: either the cloud-backed logger or the console logger. -/
inductive LoggerImpl where
  | slogLogger (client : CloudwatchClient)
  | stdLogger
deriving DecidableEq

/-- Embedding of `GetLogger(env, accessKey, secretAccessKey, logGroup, region)`:
in production it provisions a CloudWatch client (wrapping any failure),
otherwise it returns the console logger with no remote interaction. -/
def GetLogger (api : CloudwatchApi) (env accessKey secretAccessKey logGroup region : String)
    (ts : String) (u : Nat) : List Event × Except String LoggerImpl :=
  if env = PROD then
    match NewCloudwatchClient api accessKey secretAccessKey logGroup region ts u with
    | (tr, .error e) => (tr, .error ("failed to create CloudWatch client: " ++ e))
    | (tr, .ok c) => (tr, .ok (LoggerImpl.slogLogger c))
  else
    ([], .ok LoggerImpl.stdLogger)

/-- Recognizes a `CreateLogStream` call in a trace. -/
def isCreateStreamEvent : Event → Bool
  | .createLogStream _ _ => true
  | _ => false

/-- Numeric value of a lowercase hex digit character (left inverse of
`hexDigitChar` on digits). -/
def hexVal (c : Char) : Nat :=
  if 97 ≤ c.toNat then c.toNat - 87 else c.toNat - 48

/-- Reads a big-endian hex digit list back into a number. -/
def fromHex (l : List Char) : Nat :=
  l.foldl (fun acc c => acc * 16 + hexVal c) 0

/-- Oracle where every call succeeds and the queried log group is absent. -/
def apiOkAll : CloudwatchApi :=
  { loadConfig := fun _ _ _ => .ok ()
    describeLogGroups := fun _ => .ok []
    createLogGroup := fun _ => .ok ()
    createLogStream := fun _ _ _ => .ok ()
    putLogEvents := fun _ _ _ => .ok () }

/-- Oracle where the group exists and `CreateLogStream` fails on the
first two attempts, then succeeds. -/
def apiRetryThenOk : CloudwatchApi :=
  { loadConfig := fun _ _ _ => .ok ()
    describeLogGroups := fun _ => .ok ["app-logs"]
    createLogGroup := fun _ => .ok ()
    createLogStream := fun i _ _ =>
      if i = 0 then .error "e1" else if i = 1 then .error "e2" else .ok ()
    putLogEvents := fun _ _ _ => .ok () }

/-- Oracle where the group existence query fails with a generic
(non-NotFound) error and everything else succeeds. -/
def apiDescribeFails : CloudwatchApi :=
  { loadConfig := fun _ _ _ => .ok ()
    describeLogGroups := fun _ => .error "AccessDenied"
    createLogGroup := fun _ => .ok ()
    createLogStream := fun _ _ _ => .ok ()
    putLogEvents := fun _ _ _ => .ok () }

/-- Oracle where loading the AWS configuration fails (invalid credentials). -/
def apiConfigFails : CloudwatchApi :=
  { loadConfig := fun _ _ _ => .error "no credentials"
    describeLogGroups := fun _ => .ok []
    createLogGroup := fun _ => .ok ()
    createLogStream := fun _ _ _ => .ok ()
    putLogEvents := fun _ _ _ => .ok () }

/-- Oracle where `PutLogEvents` fails (network down). -/
def apiPutFails : CloudwatchApi :=
  { loadConfig := fun _ _ _ => .ok ()
    describeLogGroups := fun _ => .ok []
    createLogGroup := fun _ => .ok ()
    createLogStream := fun _ _ _ => .ok ()
    putLogEvents := fun _ _ _ => .error "network down" }

/-- A sample provisioned destination. -/
def cwExample : CloudwatchClient :=
  { logStream := "s", logGroup := "g" }

/-- The record of testable property P4:
`{message:"hello", attributes:{"code":42, "cause":<error "boom">}}`. -/
def recExample : LogRecord :=
  { message := "hello"
    attrs := [("code", AttrValue.int 42), ("cause", AttrValue.err "boom")] }

/-- The retry loop only ever sleeps 2 seconds between attempts. -/
theorem tryCreateStream_sleep (api : CloudwatchApi) (g s : String) :
    ∀ fuel i le n, Event.sleepSeconds n ∈ (tryCreateStream api g s fuel i le).1 → n = 2 := by
  intro fuel
  induction fuel with
  | zero =>
    intro i le n h
    simp [tryCreateStream] at h
  | succ k ih =>
    intro i le n h
    unfold tryCreateStream at h
    cases hc : api.createLogStream i g s with
    | ok _ =>
      rw [hc] at h
      simp at h
    | error e =>
      rw [hc] at h
      simp at h
      rcases h with h | h
      · exact h
      · exact ih (i + 1) (some e) n h

/-- Trace of the create-group branch: describe, create, 5-second sleep,
then the stream-creation loop. -/
theorem afterDescribe_created_trace (api : CloudwatchApi) (g ts : String) (u : Nat)
    (hcg : api.createLogGroup g = Except.ok ()) :
    (afterDescribe api g ts u false).1 =
      Event.describeLogGroups g :: Event.createLogGroup g :: Event.sleepSeconds 5 ::
        (tryCreateStream api g (streamName ts u) 3 0 none).1 := by
  cases hts : (tryCreateStream api g (streamName ts u) 3 0 none).2 <;>
    simp [afterDescribe, groupStep, hcg, hts]

/-- Trace of the group-exists branch: describe, then the stream-creation
loop, with no sleep in between. -/
theorem afterDescribe_exists_trace (api : CloudwatchApi) (g ts : String) (u : Nat) :
    (afterDescribe api g ts u true).1 =
      Event.describeLogGroups g :: (tryCreateStream api g (streamName ts u) 3 0 none).1 := by
  cases hts : (tryCreateStream api g (streamName ts u) 3 0 none).2 <;>
    simp [afterDescribe, groupStep, hts]

/-- C2 (corrected): the code never aborts on a failed existence query.
If DescribeLogGroups fails with any error, NewCloudwatchClient behaves
exactly as if the query had succeeded reporting the group absent: the
query error is swallowed and CreateLogGroup is invoked right after the
query. -/
theorem claim_C2 :
    ∀ api ak sk g rg ts u e,
      api.loadConfig ak sk rg = Except.ok () →
      api.describeLogGroups g = Except.error e →
      (NewCloudwatchClient api ak sk g rg ts u =
        NewCloudwatchClient
          { api with describeLogGroups := fun _ => Except.ok [] } ak sk g rg ts u) ∧
      (NewCloudwatchClient api ak sk g rg ts u).1.take 2 =
        [Event.describeLogGroups g, Event.createLogGroup g] := by
  intro api ak sk g rg ts u e hcfg hdesc
  have h1 : NewCloudwatchClient api ak sk g rg ts u = afterDescribe api g ts u false := by
    unfold NewCloudwatchClient
    rw [hcfg, hdesc]
  have h2 : NewCloudwatchClient
      { api with describeLogGroups := fun _ => Except.ok [] } ak sk g rg ts u =
      afterDescribe api g ts u false := by
    unfold NewCloudwatchClient
    dsimp only
    rw [hcfg]
    rfl
  refine ⟨h1.trans h2.symm, ?_⟩
  rw [h1]
  cases hcg : api.createLogGroup g with
  | error e2 => simp [afterDescribe, groupStep, hcg]
  | ok _ =>
    cases hts : (tryCreateStream api g (streamName ts u) 3 0 none).2 <;>
      simp [afterDescribe, groupStep, hcg, hts]

/-- Witness for C2 at a concrete oracle whose existence query fails. -/
theorem claim_C2_witness :
    (NewCloudwatchClient apiDescribeFails "ak" "sk" "g" "r" "t" 0 =
      NewCloudwatchClient
        { apiDescribeFails with describeLogGroups := fun _ => Except.ok [] }
        "ak" "sk" "g" "r" "t" 0) ∧
    (NewCloudwatchClient apiDescribeFails "ak" "sk" "g" "r" "t" 0).1.take 2 =
      [Event.describeLogGroups "g", Event.createLogGroup "g"] :=
  claim_C2 apiDescribeFails "ak" "sk" "g" "r" "t" 0 "AccessDenied" rfl rfl

/-- Counterexample to C2 as stated: with a query failing with the
generic error "AccessDenied", NewCloudwatchClient does not abort with
that error — it returns a successfully provisioned client — and
CreateLogGroup is called even though the query never succeeded. -/
theorem claim_C2_counterexample :
    (NewCloudwatchClient apiDescribeFails "ak" "sk" "g" "r" "t" 0).2 =
      Except.ok { logStream := streamName "t" 0, logGroup := "g" } ∧
    (NewCloudwatchClient apiDescribeFails "ak" "sk" "g" "r" "t" 0).2 ≠
      Except.error "AccessDenied" ∧
    Event.createLogGroup "g" ∈ (NewCloudwatchClient apiDescribeFails "ak" "sk" "g" "r" "t" 0).1 := by
  have h2 : (NewCloudwatchClient apiDescribeFails "ak" "sk" "g" "r" "t" 0).2 =
      Except.ok { logStream := streamName "t" 0, logGroup := "g" } := rfl
  have h1 : (NewCloudwatchClient apiDescribeFails "ak" "sk" "g" "r" "t" 0).1 =
      [Event.describeLogGroups "g", Event.createLogGroup "g", Event.sleepSeconds 5,
        Event.createLogStream "g" (streamName "t" 0)] := rfl
  refine ⟨h2, ?_, ?_⟩
  · rw [h2]
    simp
  · rw [h1]
    simp

/-- C6 (corrected): when provisioning creates a missing log group it
waits a fixed FIVE-second consistency delay (the code sleeps
`5 * time.Second`, not 2) between the successful CreateLogGroup call and
the first CreateLogStream attempt; when the group already exists no
consistency delay occurs — the only sleeps the stream-creation loop can
produce are its 2-second inter-attempt delays. -/
theorem claim_C6 :
    ∀ api ak sk g rg ts u l,
      api.loadConfig ak sk rg = Except.ok () →
      api.describeLogGroups g = Except.ok l →
      (g ∉ l → api.createLogGroup g = Except.ok () →
        (NewCloudwatchClient api ak sk g rg ts u).1 =
          Event.describeLogGroups g :: Event.createLogGroup g :: Event.sleepSeconds 5 ::
            (tryCreateStream api g (streamName ts u) 3 0 none).1) ∧
      (g ∈ l →
        (NewCloudwatchClient api ak sk g rg ts u).1 =
          Event.describeLogGroups g :: (tryCreateStream api g (streamName ts u) 3 0 none).1) ∧
      (∀ n, Event.sleepSeconds n ∈ (tryCreateStream api g (streamName ts u) 3 0 none).1 →
        n = 2) := by
  intro api ak sk g rg ts u l hcfg hdesc
  have h1 : NewCloudwatchClient api ak sk g rg ts u = afterDescribe api g ts u (l.contains g) := by
    unfold NewCloudwatchClient
    rw [hcfg, hdesc]
  refine ⟨?_, ?_, fun n h => tryCreateStream_sleep api g (streamName ts u) 3 0 none n h⟩
  · intro hmem hcg
    have hb : l.contains g = false := by
      simp [List.contains, hmem]
    rw [h1, hb]
    exact afterDescribe_created_trace api g ts u hcg
  · intro hmem
    have hb : l.contains g = true := by
      simp [List.contains, hmem]
    rw [h1, hb]
    exact afterDescribe_exists_trace api g ts u

/-- Witness for C6: with an absent group and an otherwise succeeding
oracle, the trace shows the 5-second sleep between group creation and
stream creation. -/
theorem claim_C6_witness :
    (NewCloudwatchClient apiOkAll "ak" "sk" "g" "r" "t" 0).1 =
      Event.describeLogGroups "g" :: Event.createLogGroup "g" :: Event.sleepSeconds 5 ::
        (tryCreateStream apiOkAll "g" (streamName "t" 0) 3 0 none).1 :=
  (claim_C6 apiOkAll "ak" "sk" "g" "r" "t" 0 [] rfl rfl).1 (List.not_mem_nil "g") rfl

/-- Counterexample to C6 as stated: in the create-group scenario the
full trace holds a 5-second sleep after CreateLogGroup and no 2-second
delay anywhere, refuting the claimed fixed 2-second consistency delay. -/
theorem claim_C6_counterexample :
    (NewCloudwatchClient apiOkAll "ak" "sk" "g" "r" "t" 0).1 =
      [Event.describeLogGroups "g", Event.createLogGroup "g", Event.sleepSeconds 5,
        Event.createLogStream "g" (streamName "t" 0)] ∧
    Event.sleepSeconds 2 ∉ (NewCloudwatchClient apiOkAll "ak" "sk" "g" "r" "t" 0).1 := by
  have h1 : (NewCloudwatchClient apiOkAll "ak" "sk" "g" "r" "t" 0).1 =
      [Event.describeLogGroups "g", Event.createLogGroup "g", Event.sleepSeconds 5,
        Event.createLogStream "g" (streamName "t" 0)] := rfl
  refine ⟨h1, ?_⟩
  rw [h1]
  simp

/-- C3: For every message and error argument, invoking Fatal on a logger
(both the cloud-backed SlogLogger and the console StdLogger) first
attempts to log the message and then terminates the process with exit
code 1, regardless of whether the log attempt succeeded (the remote
oracle `api` is arbitrary and the emission result is discarded). -/
theorem claim_C3 :
    (∀ api s msg err now,
      (SlogLogger.Fatal api s msg err now).2 = 1 ∧
      (SlogLogger.Fatal api s msg err now).1 =
        [Event.putLogEvents s.handler.client.logGroup s.handler.client.logStream
            [(Json.obj (buildLogEntry (fatalRecord msg err)), now / 1000000)],
          Event.exitProcess 1]) ∧
    (∀ msg err,
      (StdLogger.Fatal msg err).2 = 1 ∧
      (StdLogger.Fatal msg err).1 =
        [Event.consoleOut ("FATAL: " ++ msg ++ " " ++ errText err), Event.exitProcess 1]) :=
  ⟨fun _ _ _ _ _ => ⟨rfl, rfl⟩, fun _ _ => ⟨rfl, rfl⟩⟩

/-- C4: Serializing the record with message "hello" and attributes
code=42 and cause=error "boom" produces the JSON object
\x7b"message":"hello","code":42,"cause":"boom"\x7d, and in general every
error-typed attribute value is rendered as its textual description
string, never as a structured object. -/
theorem claim_C4 :
    (∀ api cw now,
      (EmitLog api cw recExample now).1 =
        [Event.putLogEvents cw.logGroup cw.logStream
          [(Json.obj [("message", Json.str "hello"), ("code", Json.num 42),
              ("cause", Json.str "boom")], now / 1000000)]]) ∧
    (∀ t, serializeValue (AttrValue.err t) = Json.str t) :=
  ⟨fun _ _ _ => rfl, fun _ => rfl⟩

/-- C8: For every record, EmitLog performs exactly one PutLogEvents call
carrying exactly one event, whose timestamp is the emission time in
milliseconds (UnixNano divided by 1000000); on failure it returns the
underlying error wrapped, and it never retries (the trace holds exactly
one call for every oracle). -/
theorem claim_C8 :
    ∀ api cw r now,
      (EmitLog api cw r now).1 =
        [Event.putLogEvents cw.logGroup cw.logStream
          [(Json.obj (buildLogEntry r), now / 1000000)]] ∧
      (∀ e, api.putLogEvents cw.logGroup cw.logStream
          [(Json.obj (buildLogEntry r), now / 1000000)] = Except.error e →
        (EmitLog api cw r now).2 =
          Except.error ("failed to send log to CloudWatch: " ++ e)) ∧
      (api.putLogEvents cw.logGroup cw.logStream
          [(Json.obj (buildLogEntry r), now / 1000000)] = Except.ok () →
        (EmitLog api cw r now).2 = Except.ok ()) := by
  intro api cw r now
  refine ⟨rfl, ?_, ?_⟩
  · intro e he
    simp [EmitLog, he]
  · intro hok
    simp [EmitLog, hok]

/-- Witness for C8 at a concrete failing oracle. -/
theorem claim_C8_witness :
    (EmitLog apiPutFails cwExample recExample 1234567890).2 =
      Except.error ("failed to send log to CloudWatch: " ++ "network down") :=
  (claim_C8 apiPutFails cwExample recExample 1234567890).2.1 "network down" rfl

/-- C9: For every environment string not equal to "prod", GetLogger
returns the console StdLogger with no error, touching neither the
credentials nor the remote service (the trace is empty). -/
theorem claim_C9 :
    ∀ api env ak sk lg rg ts u, env ≠ PROD →
      GetLogger api env ak sk lg rg ts u = ([], Except.ok LoggerImpl.stdLogger) := by
  intro api env ak sk lg rg ts u hne
  simp [GetLogger, hne]

/-- Witness for C9 at the empty environment string. -/
theorem claim_C9_witness :
    GetLogger apiOkAll "" "ak" "sk" "g" "r" "ts" 0 = ([], Except.ok LoggerImpl.stdLogger) :=
  claim_C9 apiOkAll "" "ak" "sk" "g" "r" "ts" 0 (by decide)

/-- C10: WithAttrs and WithGroup return the handler unchanged, so
records emitted through the modified handler carry exactly the payload
of the unmodified one: attached attributes and group names are
discarded. -/
theorem claim_C10 :
    ∀ (h : CloudWatchLogHandler) (attrs : List (String × AttrValue)) (g : String),
      h.WithAttrs attrs = h ∧ h.WithGroup g = h ∧
      (∀ api r now, CloudWatchLogHandler.Handle api (h.WithAttrs attrs) r now =
        CloudWatchLogHandler.Handle api h r now) ∧
      (∀ api r now, CloudWatchLogHandler.Handle api (h.WithGroup g) r now =
        CloudWatchLogHandler.Handle api h r now) :=
  fun _ _ _ => ⟨rfl, rfl, fun _ _ _ => rfl, fun _ _ _ => rfl⟩

/-- C5: GetLogger in the "dev" environment performs no remote call and
returns the console logger with no error; GetLogger in "prod" whose
provisioning fails returns the wrapped error and no logger. -/
theorem claim_C5 :
    ∀ api ak sk lg rg ts u,
      GetLogger api DEV ak sk lg rg ts u = ([], Except.ok LoggerImpl.stdLogger) ∧
      (∀ tr e, NewCloudwatchClient api ak sk lg rg ts u = (tr, Except.error e) →
        GetLogger api PROD ak sk lg rg ts u =
          (tr, Except.error ("failed to create CloudWatch client: " ++ e))) := by
  intro api ak sk lg rg ts u
  constructor
  · rfl
  · intro tr e h
    simp [GetLogger, h]

/-- Witness for C5 at an oracle with failing credentials. -/
theorem claim_C5_witness :
    GetLogger apiConfigFails PROD "ak" "sk" "g" "r" "ts" 0 =
      ([], Except.error ("failed to create CloudWatch client: " ++
        ("could not load AWS config: " ++ "no credentials"))) :=
  (claim_C5 apiConfigFails "ak" "sk" "g" "r" "ts" 0).2 []
    ("could not load AWS config: " ++ "no credentials") rfl

/-- C1: evaluation of NewCloudwatchClient at the retry-budget scenario of
property P3: CreateLogStream fails transiently on the first two attempts
(errors "e1", "e2") and succeeds on the third.  The remote client does
observe exactly 3 creation attempts, but provisioning nevertheless
returns an error wrapping "e2": the loop breaks on success without
clearing `lastErr`, so the final `if lastErr != nil` check fires even
though the stream was created.  The third conjunct records that the
third attempt did succeed. -/
theorem claim_C1 :
    NewCloudwatchClient apiRetryThenOk "ak" "sk" "app-logs" "us-east-1" "t" 0 =
      ([Event.describeLogGroups "app-logs",
        Event.createLogStream "app-logs" (streamName "t" 0), Event.sleepSeconds 2,
        Event.createLogStream "app-logs" (streamName "t" 0), Event.sleepSeconds 2,
        Event.createLogStream "app-logs" (streamName "t" 0)],
        Except.error ("failed to create CloudWatch log stream after 3 attempts: " ++ "e2")) ∧
    (NewCloudwatchClient apiRetryThenOk "ak" "sk" "app-logs" "us-east-1" "t" 0).1.countP
        (fun ev => isCreateStreamEvent ev) = 3 ∧
    apiRetryThenOk.createLogStream 2 "app-logs" (streamName "t" 0) = Except.ok () :=
  ⟨rfl, rfl, rfl⟩

/-- `hexChars` always produces exactly its width in characters. -/
theorem hexChars_length (w : Nat) : ∀ n, (hexChars w n).length = w := by
  induction w with
  | zero => intro n; rfl
  | succ k ih => intro n; simp [hexChars, ih]

/-- `hexVal` inverts `hexDigitChar` on digits. -/
theorem hexVal_hexDigitChar (d : Nat) (h : d < 16) : hexVal (hexDigitChar d) = d := by
  interval_cases d <;> rfl

/-- Reading one more digit. -/
theorem fromHex_append (l : List Char) (c : Char) :
    fromHex (l ++ [c]) = fromHex l * 16 + hexVal c := by
  simp [fromHex, List.foldl_append]

/-- `fromHex` inverts `hexChars`. -/
theorem fromHex_hexChars (w : Nat) : ∀ n, fromHex (hexChars w n) = n % 16 ^ w := by
  induction w with
  | zero => intro n; simp [hexChars, fromHex, Nat.mod_one]
  | succ k ih =>
    intro n
    rw [hexChars, fromHex_append, ih, hexVal_hexDigitChar (n % 16) (Nat.mod_lt n (by norm_num))]
    rw [pow_succ', Nat.mod_mul]
    ring

/-- Equal fixed-width hex renderings force equal remainders. -/
theorem hexChars_inj {w a b : Nat} (h : hexChars w a = hexChars w b) :
    a % 16 ^ w = b % 16 ^ w := by
  rw [← fromHex_hexChars w a, ← fromHex_hexChars w b, h]

/-- Splits one hyphen-terminated segment off an equality of UUID-shaped
character lists. -/
theorem hexSeg_inj {w x y : Nat} {r s : List Char}
    (h : hexChars w x ++ '-' :: r = hexChars w y ++ '-' :: s) :
    x % 16 ^ w = y % 16 ^ w ∧ r = s := by
  have h2 := List.append_inj h (by rw [hexChars_length, hexChars_length])
  refine ⟨hexChars_inj h2.1, ?_⟩
  injection h2.2

/-- The canonical rendering is injective on 128-bit values. -/
theorem uuidChars_inj {a b : Nat} (ha : a < 16 ^ 32) (hb : b < 16 ^ 32)
    (h : uuidChars a = uuidChars b) : a = b := by
  unfold uuidChars at h
  obtain ⟨h1, h⟩ := hexSeg_inj h
  obtain ⟨h2, h⟩ := hexSeg_inj h
  obtain ⟨h3, h⟩ := hexSeg_inj h
  obtain ⟨h4, h⟩ := hexSeg_inj h
  have h5 := hexChars_inj h
  have p4 : (16 : ℕ) ^ 4 = 65536 := by norm_num
  have p8 : (16 : ℕ) ^ 8 = 4294967296 := by norm_num
  have p12 : (16 : ℕ) ^ 12 = 281474976710656 := by norm_num
  have p16 : (16 : ℕ) ^ 16 = 18446744073709551616 := by norm_num
  have p20 : (16 : ℕ) ^ 20 = 1208925819614629174706176 := by norm_num
  have p24 : (16 : ℕ) ^ 24 = 79228162514264337593543950336 := by norm_num
  have p32 : (16 : ℕ) ^ 32 = 340282366920938463463374607431768211456 := by norm_num
  rw [p24, p8] at h1
  rw [p20, p4] at h2
  rw [p16, p4] at h3
  rw [p12, p4] at h4
  rw [p12] at h5
  rw [p32] at ha hb
  omega

/-- A UUID string always has 36 characters. -/
theorem uuidChars_length (n : Nat) : (uuidChars n).length = 36 := by
  simp [uuidChars, hexChars_length]

/-- The stream name splits into a prefix-and-timestamp part and the
36-character UUID part. -/
theorem streamName_data (ts : String) (u : Nat) :
    (streamName ts u).data = ("slogcloud-stream-" ++ ts ++ "-").data ++ uuidChars u := rfl

/-- Distinct 128-bit UUID values give distinct stream names whatever the
two timestamps are: the UUID occupies the final 36 characters. -/
theorem streamName_inj {ts1 ts2 : String} {u1 u2 : Nat}
    (h1 : u1 < 16 ^ 32) (h2 : u2 < 16 ^ 32) (hne : u1 ≠ u2) :
    streamName ts1 u1 ≠ streamName ts2 u2 := by
  intro h
  have hd : ("slogcloud-stream-" ++ ts1 ++ "-").data ++ uuidChars u1 =
      ("slogcloud-stream-" ++ ts2 ++ "-").data ++ uuidChars u2 := by
    rw [← streamName_data, ← streamName_data, h]
  have hsplit := List.append_inj' hd (by rw [uuidChars_length, uuidChars_length])
  exact hne (uuidChars_inj h1 h2 hsplit.2)

/-- Every provisioned client carries exactly the generated stream name. -/
theorem afterDescribe_ok_fields {api : CloudwatchApi} {g ts : String} {u : Nat} {b : Bool}
    {c : CloudwatchClient} (h : (afterDescribe api g ts u b).2 = Except.ok c) :
    c.logStream = streamName ts u ∧ c.logGroup = g := by
  unfold afterDescribe at h
  cases hgs : (groupStep api g b).2 with
  | error e => rw [hgs] at h; simp at h
  | ok _ =>
    rw [hgs] at h
    cases hts : (tryCreateStream api g (streamName ts u) 3 0 none).2 with
    | some e => rw [hts] at h; simp at h
    | none =>
      rw [hts] at h
      simp at h
      subst h
      exact ⟨rfl, rfl⟩

/-- C7: every successful provisioning call returns a client whose stream
name is `slogcloud-stream-<timestamp>-<uuid>` built from the fresh UUID,
and distinct UUID values yield distinct stream names regardless of the
timestamps — in particular two calls within the same millisecond (equal
timestamp strings) with fresh UUIDs produce distinct names. -/
theorem claim_C7 :
    (∀ api ak sk g rg ts u c,
      (NewCloudwatchClient api ak sk g rg ts u).2 = Except.ok c →
        c.logStream = streamName ts u ∧ c.logGroup = g) ∧
    (∀ ts1 ts2 u1 u2, u1 < 16 ^ 32 → u2 < 16 ^ 32 → u1 ≠ u2 →
      streamName ts1 u1 ≠ streamName ts2 u2) := by
  constructor
  · intro api ak sk g rg ts u c h
    unfold NewCloudwatchClient at h
    cases hcfg : api.loadConfig ak sk rg with
    | error e => rw [hcfg] at h; simp at h
    | ok _ =>
      rw [hcfg] at h
      exact afterDescribe_ok_fields h
  · intro ts1 ts2 u1 u2 h1 h2 hne
    exact streamName_inj h1 h2 hne

/-- Witness for C7: the provisioned client of a concrete successful run
carries the generated stream name, and the names generated for UUID
values 0 and 1 at the same timestamp differ. -/
theorem claim_C7_witness :
    (({ logStream := streamName "t" 0, logGroup := "g" } : CloudwatchClient).logStream =
        streamName "t" 0 ∧
      ({ logStream := streamName "t" 0, logGroup := "g" } : CloudwatchClient).logGroup = "g") ∧
    streamName "20240101T000000" 0 ≠ streamName "20240101T000000" 1 :=
  ⟨claim_C7.1 apiOkAll "ak" "sk" "g" "r" "t" 0 _ rfl,
    claim_C7.2 "20240101T000000" "20240101T000000" 0 1 (by norm_num) (by norm_num) (by decide)⟩

end SlogCloud
